import Mathlib

/-!
Verification development for the jFit group compose generation and
lifecycle orchestrator (`jfit.py`).  The Python source is shallowly
embedded below: pure string manipulation becomes Lean functions on
`String`, filesystem and container-engine interaction becomes explicit
inputs (`World`, `ParseWorld`) and explicit outputs (written files,
issued commands), and Python exceptions become an explicit `PyExc`
error channel (`Except PyExc _`), distinct from the integer return
codes the source returns on its handled failure paths.
-/

namespace Jfit

/-- Model of a raised (uncaught unless stated) Python exception. -/
inductive PyExc
  | ioError
  | indexError
  | valueError
  | keyError
  | osError
  | calledProcess
deriving DecidableEq, Repr

/-- Abstract path join, mirroring `os.path.join` on relative components. -/
def pathJoin (a b : String) : String := a ++ "/" ++ b

/-- Worker for `pySplitChar`: split at every occurrence of `c`,
keeping empty fields, like Python `s.split(c)`. -/
def pySplitCharAux (c : Char) : List Char → List Char → List String
  | [], acc => [String.mk acc.reverse]
  | x :: xs, acc =>
    if x = c then String.mk acc.reverse :: pySplitCharAux c xs []
    else pySplitCharAux c xs (x :: acc)

/-- Python `s.split(c)` for a one-character separator: every
occurrence of `c` separates two (possibly empty) fields. -/
def pySplitChar (c : Char) (s : String) : List String :=
  pySplitCharAux c s.data []

/-- Worker for `pySplitWs`: split on whitespace runs, dropping empty
tokens, like Python `s.split()` with no argument. -/
def pySplitWsAux : List Char → List Char → List String
  | [], acc => if acc.isEmpty then [] else [String.mk acc.reverse]
  | x :: xs, acc =>
    if x.isWhitespace then
      if acc.isEmpty then pySplitWsAux xs []
      else String.mk acc.reverse :: pySplitWsAux xs []
    else pySplitWsAux xs (x :: acc)

/-- Python `s.split()` with no argument. -/
def pySplitWs (s : String) : List String := pySplitWsAux s.data []

/-- Python `s.strip()`: remove leading and trailing whitespace. -/
def pyStrip (s : String) : String :=
  String.mk
    (((s.data.dropWhile Char.isWhitespace).reverse.dropWhile
        Char.isWhitespace).reverse)

/-- Python `s.upper()`. -/
def pyUpper (s : String) : String := String.mk (s.data.map Char.toUpper)

/-- Python `s.lower()`. -/
def pyLower (s : String) : String := String.mk (s.data.map Char.toLower)

/-- Python `s[n:]`. -/
def pyDrop (n : Nat) (s : String) : String := String.mk (s.data.drop n)

/-- Python `s[1:-1]`: drop the first and last character (whatever they
are), empty result on strings of length at most 2. -/
def pySlice1Neg1 (s : String) : String := String.mk ((s.data.drop 1).dropLast)

/-- Python `s.endswith(pat)`. -/
def pyEndsWith (s pat : String) : Bool := pat.data.isSuffixOf s.data

/-- Python `s.startswith(pat)`. -/
def pyStartsWith (s pat : String) : Bool := pat.data.isPrefixOf s.data

/-- Python `sep.join(parts)`. -/
def pyJoin (sep : String) : List String → String
  | [] => ""
  | [x] => x
  | x :: xs => x ++ sep ++ pyJoin sep xs

/-- `FILE_DIR_PATH` in the source is the directory of the script; its
concrete value is irrelevant to every property proved here, so it is
fixed abstractly. -/
def FILE_DIR_PATH : String := "/jfit"

def ETC_DIR_PATH : String := pathJoin FILE_DIR_PATH "etc"

def GROUP_DIR : String := pathJoin ETC_DIR_PATH "core_output"

def COMPOSE_SNIPPET_DIR : String := pathJoin FILE_DIR_PATH "compose_files"

def DOCKER_IMAGE_DIR : String := pathJoin FILE_DIR_PATH "docker_images"

def GROUP_ENV_FILE : String := "source.env"

def SERVICE_KEYS : List String :=
  ["JTI_NATIVE_COLLECTOR",
   "JTI_OC_COLLECTOR",
   "RULE_ENGINE",
   "TRAINING_ENGINE",
   "COMMAND_RPC",
   "DATABASE"]

/-- One entry of the JSON list inside an image archive's `manifest.json`:
it may or may not carry a `RepoTags` list. -/
structure ManifestEntry where
  repoTags : Option (List String)
deriving DecidableEq, Repr

/-- The content of an archive's `manifest.json` file: `parse = none`
models JSON that `json.load` rejects, otherwise the decoded list. -/
structure ManifestContent where
  parse : Option (List ManifestEntry)
deriving DecidableEq, Repr

/-- Result of `tar -xf <archive> manifest.json`: `fail` models an
unreadable archive or one with no `manifest.json` member (the `tar`
subprocess exits non-zero and nothing is extracted); `ok` models a
successful extraction of the file with the given content. -/
inductive TarResult
  | fail
  | ok (content : ManifestContent)
deriving DecidableEq, Repr

/-- Embedding of `_get_container_tags`.  The boolean state tracks
whether the transient `manifest.json` exists in the working directory
(`FILE_DIR_PATH`); the source extracts it, reads
`json.load(...)[0]['RepoTags'][0]`, and calls `os.remove` only on the
straight-line success path — there is no `try/finally`, so any
exception raised after extraction propagates with the file still on
disk. -/
def getContainerTags (manifestPresent : Bool) (arch : TarResult) :
    Except PyExc String × Bool :=
  match arch with
  | .fail => (.error .calledProcess, manifestPresent)
  | .ok content =>
    match content.parse with
    | none => (.error .valueError, true)
    | some entries =>
      match entries with
      | [] => (.error .indexError, true)
      | e :: _ =>
        match e.repoTags with
        | none => (.error .keyError, true)
        | some tags =>
          match tags with
          | [] => (.error .indexError, true)
          | t :: _ => (.ok t, false)

/-- Embedding of the tag-string processing inside `_create_compose_file`:
`service_tag.split(':')` followed by indexing `[0]` and `[1]` (an
`IndexError` when there is no `:`) and `.strip()` on both parts.  No
further validation is performed by the source. -/
def splitTag (tag : String) : Except PyExc (String × String) :=
  match pySplitChar ':' tag with
  | p0 :: p1 :: _ => .ok (pyStrip p0, pyStrip p1)
  | _ => .error .indexError

/-- A value of the environment dictionary: a plain string, or the
ordered string sequence produced for keys with the `_LIST` suffix. -/
inductive EnvVal
  | str (s : String)
  | list (l : List String)
deriving DecidableEq, Repr

/-- Python `'\x7b\x7d'.format(x)`: strings format as themselves, lists as
their `repr` (elements single-quoted, comma-space separated, in square
brackets).  Role keys never carry the `_LIST` suffix, so only the `str`
branch is ever exercised for service names. -/
def EnvVal.fmt : EnvVal → String
  | .str s => s
  | .list l =>
    "[" ++ pyJoin ", " (l.map (fun s => "\x27" ++ s ++ "\x27")) ++ "]"

/-- `line.split('=')[0]` and `line.split('=')[1]`: a line with no `=`
raises `IndexError`; extra `=`-separated fields beyond the second are
silently dropped. -/
def parseEnvLine (line : String) : Except PyExc (String × String) :=
  match pySplitChar '=' line with
  | k :: v :: _ => .ok (k, v)
  | _ => .error .indexError

/-- Python dict assignment `d[k] = v`: an existing key keeps its
position and gets the new value, a fresh key is appended. -/
def dictInsert (d : List (String × α)) (k : String) (v : α) :
    List (String × α) :=
  if d.any (fun p => p.1 = k) then
    d.map (fun p => if p.1 = k then (k, v) else p)
  else d ++ [(k, v)]

/-- The dict comprehension building `env_dict` from the whitespace-split
file content (the `if line.strip()` filter is applied by the caller). -/
def buildEnvDict (lines : List String) :
    Except PyExc (List (String × String)) :=
  lines.foldlM (fun d l => (parseEnvLine l).map (fun p => dictInsert d p.1 p.2)) []

/-- The `_LIST` pass over `env_dict`: a key ending in `_LIST` has its
value's first and last characters stripped and the remainder split on
`,`; every other key keeps its string value untouched. -/
def listify (d : List (String × String)) : List (String × EnvVal) :=
  d.map (fun p =>
    (p.1,
     if pyEndsWith p.1 "_LIST" then
       EnvVal.list (pySplitChar ',' (pySlice1Neg1 p.2))
     else EnvVal.str p.2))

/-- The filesystem and renderer facts `_create_compose_file` consults:
which image archives exist (and their extractable manifest), which
jinja templates exist (and their text), which role configuration files
exist, and the jinja rendering function (opaque to every claim: only
which template is rendered matters, never how). -/
structure World where
  imageArchive : String → Option TarResult
  templateFile : String → Option String
  confFile : String → Bool
  render : String → List (String × EnvVal) → String

/-- Outcome of processing one recognized role inside the assembly loop. -/
inductive RoleStep
  | wrote (doc : String × String)
  | failed (err : String)
  | raised (e : PyExc)
deriving Repr

/-- The body of `_create_compose_file`'s per-role loop for one entry
`(key, val)` whose key is in `SERVICE_KEYS`: derive the archive path,
resolve its tag, split it, select the template (the source compares the
resolved image name `service` — not the role key — against
`TRAINING_ENGINE`), check template presence and non-emptiness, build
the parameter map, and render. -/
def processRole (w : World) (dirPath : String) (env : List (String × EnvVal))
    (key : String) (val : EnvVal) : RoleStep :=
  let serviceName := "jfit_" ++ val.fmt
  let imgPath := pathJoin DOCKER_IMAGE_DIR (serviceName ++ ".tar.gz")
  match w.imageArchive imgPath with
  | none => .failed ("Unable to find docker image: " ++ imgPath)
  | some arch =>
    -- `_get_container_tags` either returns a string or raises, so the
    -- source's `if service_tag is None` guard is unreachable
    match (getContainerTags false arch).1 with
    | .error e => .raised e
    | .ok tags =>
      match splitTag tags with
      | .error e => .raised e
      | .ok sv =>
        let service := sv.1
        let version := sv.2
        let tmplName :=
          if service = "TRAINING_ENGINE" then service ++ "_training.yaml.j2"
          else service ++ ".yaml.j2"
        let tmplPath := pathJoin COMPOSE_SNIPPET_DIR tmplName
        match w.templateFile tmplPath with
        | none => .failed ("Compose file " ++ tmplPath ++ " is missing")
        | some tmpl =>
          if tmpl = "" then .failed ("Compose file " ++ tmplPath ++ " is empty")
          else
            let data0 : List (String × EnvVal) :=
              [(pyUpper service ++ "_IMAGE", EnvVal.str service),
               (pyUpper service ++ "_TAG", EnvVal.str version)]
            let confName := pyDrop 5 service ++ ".conf"
            let confPath := pathJoin dirPath (pathJoin (pyLower key) confName)
            let data1 :=
              if w.confFile confPath then
                dictInsert data0 (pyUpper service ++ "_CONF") (EnvVal.str confPath)
              else data0
            let data2 := env.foldl (fun d p => dictInsert d p.1 p.2) data1
            let output := w.render tmpl data2
            .wrote (pathJoin dirPath (service ++ ".yaml"), output)

/-- Result of one `_create_compose_file` run: the function's outcome
(`ok retcode` for a normal return, `error` for an uncaught exception),
the documents written to disk so far (they persist either way — there
is no rollback), and the error messages printed. -/
structure ComposeOut where
  ret : Except PyExc Int
  written : List (String × String)
  printed : List String
deriving Repr

/-- The `for service_type in env_dict` loop: keys outside
`SERVICE_KEYS` are skipped; the first failing role sets `ret_code = 1`
and `break`s (leaving earlier documents in place and never touching the
remaining entries); a raised exception aborts the whole function. -/
def composeLoop (w : World) (dirPath : String) (env : List (String × EnvVal)) :
    List (String × EnvVal) → List (String × String) → ComposeOut
  | [], written => ⟨.ok 0, written, []⟩
  | (key, val) :: rest, written =>
    if key ∈ SERVICE_KEYS then
      match processRole w dirPath env key val with
      | .wrote doc => composeLoop w dirPath env rest (written ++ [doc])
      | .failed err => ⟨.ok 1, written, [err]⟩
      | .raised e => ⟨.error e, written, []⟩
    else composeLoop w dirPath env rest written

/-- Embedding of `_create_compose_file`.  `envFileContent` is the text
of `<dir>/source.env` when that file exists.  When it is absent the
source prints the error but — missing a `return` — falls through to
`open(env_file)`, which raises `IOError`. -/
def createComposeFile (w : World) (dirPath : String)
    (envFileContent : Option String) : ComposeOut :=
  match envFileContent with
  | none =>
    ⟨.error .ioError, [],
     ["Unable to find file: " ++ pathJoin dirPath GROUP_ENV_FILE]⟩
  | some content =>
    let lines := (pySplitWs content).filter (fun l => pyStrip l ≠ "")
    match buildEnvDict lines with
    | .error e => ⟨.error e, [], []⟩
    | .ok d0 =>
      let d1 := listify d0
      let d2 :=
        dictInsert (dictInsert d1 "JFIT_ETC_PATH" (EnvVal.str ETC_DIR_PATH))
          "JFIT_OUTPUT_PATH" (EnvVal.str GROUP_DIR)
      composeLoop w dirPath d2 d2 []

/-- The batch step of `parse`:
`ret_codes = [_create_compose_file(x) for x in group_folders]`.  Every
group is assembled in order; a group whose assembly returns normally
(even with a failure code) never stops the comprehension, while an
uncaught exception aborts it. -/
def assembleGroups (w : World) (envOf : String → Option String) :
    List String → Except PyExc (List ComposeOut)
  | [] => .ok []
  | g :: rest =>
    let r := createComposeFile w (pathJoin GROUP_DIR g) (envOf g)
    match r.ret with
    | .error e => .error e
    | .ok _ => (assembleGroups w envOf rest).map (fun l => r :: l)

/-- Did this group's assembly end other than with a clean return code 0? -/
def ComposeOut.bad (r : ComposeOut) : Bool :=
  match r.ret with
  | .ok n => n != 0
  | .error _ => true

/-- The aggregation after the batch: non-zero overall result exactly
when some group's return code is non-zero. -/
def batchRet (rs : List ComposeOut) : Int :=
  if rs.any ComposeOut.bad then 1 else 0

/-- Embedding of `_get_compose_files` over the group directory's
listing: either the integer error sentinel `1` (no `.yaml` documents)
or the joined ` -f doc1 -f doc2 ...` argument string, in listing
order (the join over `[''] ++ files` puts ` -f ` before every name). -/
def getComposeFiles (files : List String) : Sum Int String :=
  let yamls := files.filter (fun x => pyEndsWith x ".yaml")
  if yamls.isEmpty then Sum.inl 1
  else Sum.inr (pyJoin " -f " ("" :: yamls))

/-- Result of one lifecycle operation: its outcome and the single
container-engine command it issued, if it issued one. -/
structure LifeOut where
  ret : Except PyExc Int
  engineCmd : Option String
deriving Repr

/-- Embedding of `start`.  `dirs` maps a group name to its directory
listing when the directory exists; `engine` gives the engine's verdict
on a command (`error rc` models `CalledProcessError`).  The source
checks the directory, checks `_get_compose_files`'s sentinel, then
appends either ` start <service>` or ` up -d`. -/
def start (dirs : String → Option (List String))
    (engine : String → Except Int String)
    (group : String) (service : Option String) : LifeOut :=
  match dirs group with
  | none => ⟨.ok 1, none⟩
  | some files =>
    match getComposeFiles files with
    | .inl _ => ⟨.ok 1, none⟩
    | .inr cf =>
      let cmd := "docker-compose -p " ++ group ++ " " ++ cf
      let cmd :=
        match service with
        | some s => cmd ++ " start " ++ s
        | none => cmd ++ " up -d"
      match engine cmd with
      | .ok _ => ⟨.ok 0, some cmd⟩
      | .error rc => ⟨.ok rc, some cmd⟩

/-- Embedding of `remove`.  Unlike `start`/`stop`/`restart`/`cli`, the
source neither checks that the group directory exists (`os.chdir`
raises `OSError` on a nonexistent path) nor checks
`_get_compose_files`'s sentinel: the integer `1` is formatted straight
into the docker-compose command, which is then executed. -/
def «remove» (dirs : String → Option (List String))
    (engine : String → Except Int String)
    (group : String) (service : Option String) : LifeOut :=
  match dirs group with
  | none => ⟨.error .osError, none⟩
  | some files =>
    let cf :=
      match getComposeFiles files with
      | .inl n => toString n
      | .inr s => s
    let cmd := "docker-compose -p " ++ group ++ " " ++ cf ++ " rm --force --stop -v"
    let cmd :=
      match service with
      | some s => cmd ++ " " ++ s
      | none => cmd
    match engine cmd with
    | .ok _ => ⟨.ok 0, some cmd⟩
    | .error rc => ⟨.ok rc, some cmd⟩

/-- Commands issued by the helper-container supervision loop in
`parse`: a `docker inspect` status poll, the 5-second sleep that
follows it, and the final `docker rm -f`. -/
inductive Cmd
  | inspect
  | sleep5
  | removeContainer
deriving DecidableEq, Repr

/-- How the poll loop ended relative to the supplied responses. -/
inductive PollEnd
  | removed
  | aborted
  | polling
deriving DecidableEq, Repr

/-- The `while status != 'exited'` loop of `parse`, driven by the
engine's successive poll responses (`error rc` models a raising
`docker inspect`, which the surrounding `except` catches, skipping the
removal).  An exhausted response list means the loop is still blocked
polling — it has no timeout. -/
def pollTrace : List (Except Int String) → List Cmd × PollEnd
  | [] => ([], .polling)
  | .error _ :: _ => ([Cmd.inspect], .aborted)
  | .ok s :: rest =>
    if s = "exited" then ([Cmd.inspect, Cmd.sleep5, Cmd.removeContainer], .removed)
    else
      let t := pollTrace rest
      (Cmd.inspect :: Cmd.sleep5 :: t.1, t.2)

/-- Return code carried by the first raising poll response. -/
def firstErrRC : List (Except Int String) → Int
  | [] => 0
  | .error rc :: _ => rc
  | .ok _ :: rest => firstErrRC rest

/-- Everything an invocation of the `parse` command can observe:
whether the input-path validation succeeds, the requested device
group, the `jfit_core` archive, the behavior of `docker run`, the poll
responses, the behavior of `docker rm`, the group directories the
helper writes under the output root, each group's `source.env`
content, and the assembly world. -/
structure ParseWorld where
  inputOk : Bool
  deviceGroup : String
  coreArchive : TarResult
  runFail : Option Int
  pollResponses : List (Except Int String)
  rmFail : Option Int
  helperOutput : List String
  envOf : String → Option String
  world : World

/-- Observable outcome of `parse`: the result (`none` while the poll
loop is still blocked), the final set of group directories under the
shared output root (`none` only when the root does not exist), whether
the helper launch was issued, and the root's contents at the moment of
launch. -/
structure ParseOut where
  ret : Option (Except PyExc Int)
  root : Option (List String)
  launched : Bool
  rootAtLaunch : Option (List String)

/-- Embedding of `parse` from input validation onward.  After the
validation passes, the source unconditionally recreates the shared
output root empty (`shutil.rmtree` + `os.makedirs`), resolves the
`jfit_core` tag (an uncaught raise on failure), launches the helper,
polls it to `exited`, removes it, enumerates the non-hidden group
directories the helper wrote, and assembles each. -/
def parseCmd (w : ParseWorld) (root0 : Option (List String)) : ParseOut :=
  if !w.inputOk then ⟨some (.ok 1), root0, false, none⟩
  else
    -- rmtree + makedirs: the shared output root now exists and is empty
    match (getContainerTags false w.coreArchive).1 with
    | .error e => ⟨some (.error e), some [], false, none⟩
    | .ok _tags =>
      match w.runFail with
      | some rc => ⟨some (.ok rc), some [], true, some []⟩
      | none =>
        match (pollTrace w.pollResponses).2 with
        | .polling => ⟨none, some w.helperOutput, true, some []⟩
        | .aborted =>
          ⟨some (.ok (firstErrRC w.pollResponses)), some w.helperOutput,
           true, some []⟩
        | .removed =>
          match w.rmFail with
          | some rc => ⟨some (.ok rc), some w.helperOutput, true, some []⟩
          | none =>
            let groups := w.helperOutput.filter (fun g => !pyStartsWith g ".")
            if groups.isEmpty then
              ⟨some (.ok 1), some w.helperOutput, true, some []⟩
            else
              match assembleGroups w.world w.envOf groups with
              | .error e => ⟨some (.error e), some w.helperOutput, true, some []⟩
              | .ok rs => ⟨some (.ok (batchRet rs)), some w.helperOutput, true, some []⟩

/-! Concrete instances used to evaluate the embedded code on explicit
inputs. -/

/-- A world with no image archives, no templates and no configuration
files; rendering returns the template text. -/
def w1 : World :=
  ⟨fun _ => none, fun _ => none, fun _ => false, fun t _ => t⟩

/-- A world for a group whose manifest holds the training-engine role
implemented by `te`: the archive `jfit_te.tar.gz` resolves to
`jfit_te:1.0`, and both the generic template `jfit_te.yaml.j2` and a
specialized training template are on disk. -/
def teWorld : World where
  imageArchive := fun p =>
    if p = pathJoin DOCKER_IMAGE_DIR "jfit_te.tar.gz" then
      some (TarResult.ok ⟨some [⟨some ["jfit_te:1.0"]⟩]⟩)
    else none
  templateFile := fun p =>
    if p = pathJoin COMPOSE_SNIPPET_DIR "jfit_te.yaml.j2" then some "GENERIC"
    else if p = pathJoin COMPOSE_SNIPPET_DIR "jfit_te_training.yaml.j2" then
      some "SPECIAL"
    else none
  confFile := fun _ => false
  render := fun t _ => t

/-- Group directories: `grp` exists but holds no `.yaml` document. -/
def rmDirs : String → Option (List String) :=
  fun g => if g = "grp" then some ["readme.txt"] else none

/-- An engine that accepts every command. -/
def okEngine : String → Except Int String := fun _ => .ok ""

/-- Group directories for exercising `start`: `g` holds two rendered
documents and one stray file. -/
def startDirs : String → Option (List String) :=
  fun g => if g = "g" then some ["a.yaml", "notes.txt", "b.yaml"] else none

/-- A parse invocation whose validation passes, whose helper runs to
`exited` after one poll, and whose output holds one group `gA` with an
empty manifest. -/
def pw : ParseWorld where
  inputOk := true
  deviceGroup := "dgroup"
  coreArchive := TarResult.ok ⟨some [⟨some ["jfit_core:2.0"]⟩]⟩
  runFail := none
  pollResponses := [Except.ok "exited"]
  rmFail := none
  helperOutput := ["gA"]
  envOf := fun _ => some ""
  world := w1

/-- `ComposeOut.bad` is exactly "the return differs from a clean 0". -/
theorem composeOut_bad_iff (r : ComposeOut) :
    r.bad = true ↔ r.ret ≠ Except.ok 0 := by
  rcases hr : r.ret with e | n
  · simp [ComposeOut.bad, hr]
  · simp [ComposeOut.bad, hr, bne_iff_ne]

/-- C2: a group whose manifest contains the training-engine role key
(`TRAINING_ENGINE=te`) is assembled from the generic per-role template
(the written document carries the generic template's rendering), even
though the specialized training template also exists — the source
compares the resolved image name, not the role key, against
`TRAINING_ENGINE`. -/
theorem c2_training_template_not_selected :
    createComposeFile teWorld "grp" (some "TRAINING_ENGINE=te") =
      ⟨Except.ok 0, [("grp/jfit_te.yaml", "GENERIC")], []⟩
    ∧ teWorld.templateFile (pathJoin COMPOSE_SNIPPET_DIR "jfit_te_training.yaml.j2") =
      some "SPECIAL" :=
  ⟨rfl, rfl⟩

/-- C3 counterexample: resolving an archive whose extracted
`manifest.json` decodes to an empty JSON list fails with an
`IndexError` while the extracted metadata file is still on disk — the
claim that no temporary file remains on every failure path is false. -/
theorem c3_counterexample :
    getContainerTags false (TarResult.ok ⟨some []⟩) =
      (Except.error PyExc.indexError, true) := rfl

/-- C4 counterexample: a tag with an empty name (`:1.0`) resolves
without any error to the pair `("", "1.0")`, and a tag with two `:`
separators is silently truncated to its first two fields — the claim
that such tags fail with a resolution error is false. -/
theorem c4_counterexample :
    splitTag ":1.0" = Except.ok ("", "1.0")
    ∧ splitTag "a:b:c" = Except.ok ("a", "b") :=
  ⟨rfl, rfl⟩

/-- C5: `remove` on an existing group directory holding zero `.yaml`
documents does invoke the container engine, with the integer error
sentinel `1` formatted into the command, and on a nonexistent group
directory raises an uncaught `OSError` from `os.chdir` — whereas
`start` on the same unassembled group returns 1 without touching the
engine, as the claim demands of every lifecycle operation. -/
theorem c5_remove_skips_checks :
    «remove» rmDirs okEngine "grp" none =
      ⟨Except.ok 0, some "docker-compose -p grp 1 rm --force --stop -v"⟩
    ∧ «remove» rmDirs okEngine "missing" none = ⟨Except.error PyExc.osError, none⟩
    ∧ start rmDirs okEngine "grp" none = ⟨Except.ok 1, none⟩ :=
  ⟨rfl, rfl, rfl⟩

/-- C8: assembling a group whose directory lacks `source.env` prints
the distinguishable message but then raises an uncaught `IOError` from
`open` (the source is missing a `return`), instead of returning a
non-zero code; no role is processed, and in a batch the exception also
prevents the remaining groups from being assembled. -/
theorem c8_manifest_missing_raises :
    createComposeFile w1 "grp" none =
      ⟨Except.error PyExc.ioError, [], ["Unable to find file: grp/source.env"]⟩
    ∧ assembleGroups w1 (fun g => if g = "bad" then none else some "")
        ["bad", "good"] = Except.error PyExc.ioError :=
  ⟨rfl, rfl⟩

/-- C1: inside one group, a role whose processing soft-fails ends the
assembly loop immediately with return code 1 — whatever roles remain —
keeping exactly the documents already written (no rollback), while a
successfully processed role appends its document and continues; across
a batch, groups whose assembly returns normally are all assembled
regardless of each other's return codes, and the aggregated result is
non-zero exactly when some group failed. -/
theorem c1_role_failure_scope :
    (∀ (w : World) (d : String) (env : List (String × EnvVal)) (k : String)
        (v : EnvVal) (rest : List (String × EnvVal))
        (written : List (String × String)) (err : String),
      k ∈ SERVICE_KEYS → processRole w d env k v = RoleStep.failed err →
      composeLoop w d env ((k, v) :: rest) written = ⟨.ok 1, written, [err]⟩)
    ∧ (∀ (w : World) (d : String) (env : List (String × EnvVal)) (k : String)
        (v : EnvVal) (rest : List (String × EnvVal))
        (written : List (String × String)) (doc : String × String),
      k ∈ SERVICE_KEYS → processRole w d env k v = RoleStep.wrote doc →
      composeLoop w d env ((k, v) :: rest) written =
        composeLoop w d env rest (written ++ [doc]))
    ∧ (∀ (w : World) (envOf : String → Option String) (gs : List String),
      (∀ g ∈ gs, ∃ n,
        (createComposeFile w (pathJoin GROUP_DIR g) (envOf g)).ret = Except.ok n) →
      assembleGroups w envOf gs =
        .ok (gs.map fun g => createComposeFile w (pathJoin GROUP_DIR g) (envOf g)))
    ∧ (∀ rs : List ComposeOut,
      batchRet rs = 1 ↔ ∃ r ∈ rs, r.ret ≠ Except.ok 0) := by
  refine ⟨?_, ?_, ?_, ?_⟩
  · intro w d env k v rest written err hk hfail
    simp [composeLoop, hk, hfail]
  · intro w d env k v rest written doc hk hwrote
    simp [composeLoop, hk, hwrote]
  · intro w envOf gs h
    induction gs with
    | nil => rfl
    | cons g gs ih =>
      obtain ⟨n, hn⟩ := h g (List.mem_cons_self g gs)
      have hrest := ih (fun g' hg' => h g' (List.mem_cons_of_mem g hg'))
      simp only [assembleGroups]
      rw [hn, hrest]
      rfl
  · intro rs
    constructor
    · intro h
      by_contra hc
      push_neg at hc
      have : rs.any ComposeOut.bad = false := by
        rw [List.any_eq_false]
        intro r hr
        have := hc r hr
        simp only [ne_eq, not_not] at this
        simp [ComposeOut.bad, this]
      simp [batchRet, this] at h
    · rintro ⟨r, hr, hne⟩
      have : rs.any ComposeOut.bad = true :=
        List.any_eq_true.mpr ⟨r, hr, (composeOut_bad_iff r).mpr hne⟩
      simp [batchRet, this]

/-- Witness for C1 at concrete inputs: a missing `DATABASE` image
aborts the loop keeping the earlier document; two groups with empty
manifests are both assembled; a batch holding one failing result
aggregates to 1. -/
theorem c1_witness :
    composeLoop w1 "d" [] [("DATABASE", EnvVal.str "db"), ("RULE_ENGINE", EnvVal.str "re")]
        [("x", "y")] =
      ⟨.ok 1, [("x", "y")],
       ["Unable to find docker image: /jfit/docker_images/jfit_db.tar.gz"]⟩
    ∧ assembleGroups w1 (fun _ => some "") ["g1", "g2"] =
      .ok (["g1", "g2"].map fun g =>
        createComposeFile w1 (pathJoin GROUP_DIR g) ((fun _ => some "") g))
    ∧ (batchRet [⟨.ok 1, [], []⟩] = 1 ↔
        ∃ r ∈ [(⟨.ok 1, [], []⟩ : ComposeOut)], r.ret ≠ Except.ok 0) := by
  refine ⟨?_, ?_, ?_⟩
  · exact c1_role_failure_scope.1 w1 "d" [] "DATABASE" (EnvVal.str "db")
      [("RULE_ENGINE", EnvVal.str "re")] [("x", "y")] _ (by simp [SERVICE_KEYS]) rfl
  · refine c1_role_failure_scope.2.2.1 w1 (fun _ => some "") ["g1", "g2"] ?_
    intro g hg
    rcases hg with _ | ⟨_, hg⟩
    · exact ⟨0, rfl⟩
    · rcases hg with _ | ⟨_, hg⟩
      · exact ⟨0, rfl⟩
      · cases hg
  · exact c1_role_failure_scope.2.2.2 [⟨.ok 1, [], []⟩]

/-- C3 (amended): the transient metadata file is deleted before a
successful return; a failure of the extraction itself (unreadable
archive or absent manifest) extracts nothing, so nothing remains; but
a resolution failure after extraction (malformed manifest contents)
propagates with the extracted file still present. -/
theorem c3_cleanup_on_success :
    ∀ arch : TarResult,
      (∀ t, (getContainerTags false arch).1 = Except.ok t →
        (getContainerTags false arch).2 = false)
      ∧ (arch = TarResult.fail →
        getContainerTags false arch = (Except.error PyExc.calledProcess, false))
      ∧ (∀ e, arch ≠ TarResult.fail →
        (getContainerTags false arch).1 = Except.error e →
        (getContainerTags false arch).2 = true) := by
  intro arch
  cases arch with
  | fail =>
    exact ⟨fun t ht => by simp [getContainerTags] at ht, fun _ => rfl,
      fun e hne _ => absurd rfl hne⟩
  | ok c =>
    obtain ⟨p⟩ := c
    cases p with
    | none =>
      exact ⟨fun t ht => by simp [getContainerTags] at ht, by simp,
        fun e _ _ => rfl⟩
    | some entries =>
      cases entries with
      | nil =>
        exact ⟨fun t ht => by simp [getContainerTags] at ht, by simp,
          fun e _ _ => rfl⟩
      | cons hd tl =>
        obtain ⟨rt⟩ := hd
        cases rt with
        | none =>
          exact ⟨fun t ht => by simp [getContainerTags] at ht, by simp,
            fun e _ _ => rfl⟩
        | some tags =>
          cases tags with
          | nil =>
            exact ⟨fun t ht => by simp [getContainerTags] at ht, by simp,
              fun e _ _ => rfl⟩
          | cons t ts =>
            exact ⟨fun t' _ => rfl, by simp,
              fun e _ he => by simp [getContainerTags] at he⟩

/-- Witness for C3 (amended): a well-formed archive resolves with the
metadata file removed, and an unreadable archive leaves the clean
state untouched. -/
theorem c3_witness :
    (getContainerTags false (TarResult.ok ⟨some [⟨some ["jfit_db:3.0"]⟩]⟩)).2 = false
    ∧ getContainerTags false TarResult.fail =
      (Except.error PyExc.calledProcess, false) :=
  ⟨(c3_cleanup_on_success _).1 "jfit_db:3.0" rfl, (c3_cleanup_on_success _).2.1 rfl⟩

/-- C4 (amended): the tag is split on `:` with no validation at all —
when at least one `:` is present the first two fields are returned
trimmed (empty fields and surplus fields accepted silently); only a
tag with no `:` fails, and then with an uncaught `IndexError`, not a
handled resolution error. -/
theorem c4_split_no_validation :
    ∀ tag : String,
      (∀ p0 p1 rest, pySplitChar ':' tag = p0 :: p1 :: rest →
        splitTag tag = Except.ok (pyStrip p0, pyStrip p1))
      ∧ (∀ p0, pySplitChar ':' tag = [p0] →
        splitTag tag = Except.error PyExc.indexError) := by
  intro tag
  constructor
  · intro p0 p1 rest h
    simp [splitTag, h]
  · intro p0 h
    simp [splitTag, h]

/-- Witness for C4 (amended): `n:v` yields the trimmed pair, `nocolon`
raises. -/
theorem c4_witness :
    splitTag "n:v" = Except.ok ("n", "v")
    ∧ splitTag "nocolon" = Except.error PyExc.indexError :=
  ⟨(c4_split_no_validation "n:v").1 "n" "v" [] rfl,
   (c4_split_no_validation "nocolon").2 "nocolon" rfl⟩

/-- C6: in every parsed manifest, every entry whose key carries the
`_LIST` suffix and holds the value `[a,b,c]` parses to the ordered
sequence `a`, `b`, `c` (brackets stripped, comma-split, order kept),
and the value of every key without the suffix is kept as an unsplit
string. -/
theorem c6_list_suffix_parsing :
    (∀ (d : List (String × String)) (k : String),
        (k, "[a,b,c]") ∈ d → pyEndsWith k "_LIST" = true →
        (k, EnvVal.list ["a", "b", "c"]) ∈ listify d)
    ∧ ∀ (d : List (String × String)) (k v : String),
        (k, v) ∈ d → pyEndsWith k "_LIST" = false →
        (k, EnvVal.str v) ∈ listify d := by
  constructor
  · intro d k hmem hsuf
    refine List.mem_map.mpr ⟨(k, "[a,b,c]"), hmem, ?_⟩
    rw [pyEndsWith] at hsuf
    simp only [listify, pyEndsWith, hsuf, if_true]
    rfl
  · intro d k v hmem hsuf
    exact List.mem_map.mpr ⟨(k, v), hmem, by simp [hsuf]⟩

/-- Witness for C6 on a two-entry manifest: the suffixed key's
bracketed value parses to the ordered sequence and the unsuffixed key
keeps its plain value. -/
theorem c6_witness :
    ("ROLES_LIST", EnvVal.list ["a", "b", "c"]) ∈
      listify [("PORT", "8080"), ("ROLES_LIST", "[a,b,c]")]
    ∧ ("PORT", EnvVal.str "8080") ∈
      listify [("PORT", "8080"), ("ROLES_LIST", "[a,b,c]")] :=
  ⟨c6_list_suffix_parsing.1 [("PORT", "8080"), ("ROLES_LIST", "[a,b,c]")]
      "ROLES_LIST" (by simp) rfl,
   c6_list_suffix_parsing.2 [("PORT", "8080"), ("ROLES_LIST", "[a,b,c]")]
      "PORT" "8080" (by simp) rfl⟩

/-- C7: for a group directory that exists and holds rendered `.yaml`
documents, `start` with no role issues one engine command carrying
every document as a ` -f doc` argument in listing order followed by
`up -d`, and with a role issues the same multi-file list followed by
`start <role>` scoping the command to that already-defined service. -/
theorem c7_start_command_assembly :
    ∀ (dirs : String → Option (List String))
      (engine : String → Except Int String) (g : String)
      (files : List String) (s : String),
      dirs g = some files →
      (files.filter (fun x => pyEndsWith x ".yaml")).isEmpty = false →
      (start dirs engine g none).engineCmd =
        some ("docker-compose -p " ++ g ++ " " ++
          pyJoin " -f " ("" :: files.filter (fun x => pyEndsWith x ".yaml")) ++
          " up -d")
      ∧ (start dirs engine g (some s)).engineCmd =
        some ("docker-compose -p " ++ g ++ " " ++
          pyJoin " -f " ("" :: files.filter (fun x => pyEndsWith x ".yaml")) ++
          " start " ++ s) := by
  intro dirs engine g files s hdirs hne
  have h1 : getComposeFiles files =
      Sum.inr (pyJoin " -f " ("" :: files.filter (fun x => pyEndsWith x ".yaml"))) := by
    simp [getComposeFiles, hne]
  constructor
  · simp only [start, hdirs, h1]
    split <;> rfl
  · simp only [start, hdirs, h1]
    split <;> rfl

/-- Witness for C7 at a concrete directory listing. -/
theorem c7_witness :
    (start startDirs okEngine "g" none).engineCmd =
      some "docker-compose -p g  -f a.yaml -f b.yaml up -d"
    ∧ (start startDirs okEngine "g" (some "db")).engineCmd =
      some "docker-compose -p g  -f a.yaml -f b.yaml start db" :=
  ⟨(c7_start_command_assembly startDirs okEngine "g" ["a.yaml", "notes.txt", "b.yaml"]
      "db" rfl rfl).1,
   (c7_start_command_assembly startDirs okEngine "g" ["a.yaml", "notes.txt", "b.yaml"]
      "db" rfl rfl).2⟩

/-- C9: the helper-container supervision never issues the removal
while the polls keep reporting anything other than `exited` — however
many polls that takes, there is no timeout — and as soon as one poll
reports `exited` the loop ends and the removal is issued, after having
polled (and slept its fixed interval) once per response. -/
theorem c9_poll_until_exited :
    (∀ rs : List (Except Int String),
      (∀ r ∈ rs, r ≠ Except.ok "exited") →
      Cmd.removeContainer ∉ (pollTrace rs).1)
    ∧ (∀ pre : List (Except Int String),
      (∀ r ∈ pre, ∃ s, r = Except.ok s ∧ s ≠ "exited") →
      pollTrace (pre ++ [Except.ok "exited"]) =
        ((List.replicate pre.length [Cmd.inspect, Cmd.sleep5]).flatten ++
          [Cmd.inspect, Cmd.sleep5, Cmd.removeContainer], PollEnd.removed)) := by
  constructor
  · intro rs
    induction rs with
    | nil => intro _ h; simp [pollTrace] at h
    | cons r rest ih =>
      intro hr
      cases r with
      | error rc => simp [pollTrace]
      | ok st =>
        have hst : st ≠ "exited" := by
          intro h
          exact hr (Except.ok st) (List.mem_cons_self _ _) (by rw [h])
        simp only [pollTrace, hst, if_false]
        simp only [List.mem_cons]
        rintro (h | h | h)
        · cases h
        · cases h
        · exact ih (fun r' hr' => hr r' (List.mem_cons_of_mem _ hr')) h
  · intro pre
    induction pre with
    | nil => intro _; simp [pollTrace]
    | cons r rest ih =>
      intro hr
      obtain ⟨st, rfl, hst⟩ := hr r (List.mem_cons_self _ _)
      have hrest := ih (fun r' hr' => hr r' (List.mem_cons_of_mem _ hr'))
      simp only [List.cons_append, pollTrace, hst, if_false, List.append_eq]
      rw [hrest]
      simp [List.replicate_succ]

/-- Witness for C9: two non-terminal polls issue no removal; one
non-terminal poll followed by `exited` gives the full trace ending in
the removal. -/
theorem c9_witness :
    Cmd.removeContainer ∉
      (pollTrace [Except.ok "running", Except.ok "created"]).1
    ∧ pollTrace [Except.ok "running", Except.ok "exited"] =
      ([Cmd.inspect, Cmd.sleep5, Cmd.inspect, Cmd.sleep5, Cmd.removeContainer],
        PollEnd.removed) := by
  constructor
  · refine c9_poll_until_exited.1 [Except.ok "running", Except.ok "created"] ?_
    intro r hr
    rcases hr with _ | ⟨_, hr⟩
    · simp
    · rcases hr with _ | ⟨_, hr⟩
      · simp
      · cases hr
  · have := c9_poll_until_exited.2 [Except.ok "running"]
      (by intro r hr
          rcases hr with _ | ⟨_, hr⟩
          · exact ⟨"running", rfl, by simp⟩
          · cases hr)
    simpa using this

/-- C10: once a parse invocation passes input validation, the shared
output root is recreated empty before the helper is launched (so every
previously assembled group directory and its documents are destroyed,
whatever device group was requested and whatever the prior contents
were), and the final root holds at most what the helper itself wrote —
also when a later step fails. -/
theorem c10_parse_clears_output_root :
    ∀ (w : ParseWorld) (root0 : Option (List String)),
      w.inputOk = true →
      ((parseCmd w root0).launched = true →
        (parseCmd w root0).rootAtLaunch = some [])
      ∧ ((parseCmd w root0).root = some [] ∨
         (parseCmd w root0).root = some w.helperOutput) := by
  intro w root0 h
  unfold parseCmd
  rw [h]
  simp only [Bool.not_true, Bool.false_eq_true, if_false]
  rcases (getContainerTags false w.coreArchive).1 with e | tags
  · exact ⟨fun hc => by simp at hc, Or.inl rfl⟩
  · rcases w.runFail with _ | rc
    · rcases (pollTrace w.pollResponses).2 with _ | _ | _
      · rcases w.rmFail with _ | rc
        · cases hb : (w.helperOutput.filter (fun g => !pyStartsWith g ".")).isEmpty with
          | true => exact ⟨fun _ => rfl, Or.inr rfl⟩
          | false =>
            rcases assembleGroups w.world w.envOf
                (w.helperOutput.filter (fun g => !pyStartsWith g ".")) with e | rs
            · exact ⟨fun _ => rfl, Or.inr rfl⟩
            · exact ⟨fun _ => rfl, Or.inr rfl⟩
        · exact ⟨fun _ => rfl, Or.inr rfl⟩
      · exact ⟨fun _ => rfl, Or.inr rfl⟩
      · exact ⟨fun _ => rfl, Or.inr rfl⟩
    · exact ⟨fun _ => rfl, Or.inl rfl⟩

/-- Witness for C10: a concrete parse run over a root previously
holding two assembled groups launches with the root empty and ends
with only the helper's own output present. -/
theorem c10_witness :
    ((parseCmd pw (some ["old1", "old2"])).launched = true →
      (parseCmd pw (some ["old1", "old2"])).rootAtLaunch = some [])
    ∧ ((parseCmd pw (some ["old1", "old2"])).root = some [] ∨
       (parseCmd pw (some ["old1", "old2"])).root = some pw.helperOutput) :=
  c10_parse_clears_output_root pw (some ["old1", "old2"]) rfl

end Jfit
